import Mathlib

/-!
Verification development for the GitHub Projects V2 tool layer
(pkg/github: owner_resolution.go, the error classifier, and the
projects query/mutation operations).

The Go code is shallowly embedded: the GraphQL transport is modelled as
an oracle supplying, for each network call an operation issues, the
decoded data together with an optional error message; Go error values
are modelled by their message strings, nil pointers and nil slices by
Option, and each operation additionally records the ordered trace of
side effects it performs (credential lookup, client construction,
queries, mutations).
-/

namespace GithubProjects

/-! ### Go strings.Contains -/

/-- Does the character list start with the pattern list? -/
def charsStartWith (s pat : List Char) : Bool :=
  match s, pat with
  | _, [] => true
  | [], _ :: _ => false
  | a :: s1, b :: p1 => a == b && charsStartWith s1 p1

/-- Does the pattern list occur contiguously inside the character list? -/
def charsContain (s pat : List Char) : Bool :=
  match s with
  | [] => pat.isEmpty
  | _ :: s1 => charsStartWith s pat || charsContain s1 pat

/-- Model of Go strings.Contains: substring containment. -/
def goContains (s pat : String) : Bool :=
  charsContain s.toList pat.toList

theorem charsStartWith_iff (s pat : List Char) :
    charsStartWith s pat = true ↔ ∃ r, s = pat ++ r := by
  induction s generalizing pat with
  | nil =>
    cases pat with
    | nil => simp [charsStartWith]
    | cons b p1 => simp [charsStartWith]
  | cons a s1 ih =>
    cases pat with
    | nil => simp [charsStartWith]
    | cons b p1 =>
      simp only [charsStartWith, Bool.and_eq_true, beq_iff_eq, ih, List.cons_append,
        List.cons.injEq]
      constructor
      · rintro ⟨hab, r, hr⟩
        exact ⟨r, hab, hr⟩
      · rintro ⟨r, hab, hr⟩
        exact ⟨hab, r, hr⟩

theorem charsContain_iff (s pat : List Char) :
    charsContain s pat = true ↔ ∃ l r, s = l ++ (pat ++ r) := by
  induction s with
  | nil =>
    simp only [charsContain, List.isEmpty_iff]
    constructor
    · intro h
      exact ⟨[], [], by simp [h]⟩
    · rintro ⟨l, r, h⟩
      rcases l with _ | ⟨a, l1⟩
      · rcases pat with _ | ⟨b, p1⟩
        · rfl
        · simp at h
      · simp at h
  | cons a s1 ih =>
    simp only [charsContain, Bool.or_eq_true, charsStartWith_iff, ih]
    constructor
    · rintro (⟨r, hr⟩ | ⟨l, r, hr⟩)
      · exact ⟨[], r, by simp [hr]⟩
      · exact ⟨a :: l, r, by simp [hr]⟩
    · rintro ⟨l, r, hr⟩
      rcases l with _ | ⟨b, l1⟩
      · exact Or.inl ⟨r, by simpa using hr⟩
      · simp only [List.cons_append, List.cons.injEq] at hr
        exact Or.inr ⟨l1, r, hr.2⟩

theorem goContains_iff (s pat : String) :
    goContains s pat = true ↔ ∃ l r, s.toList = l ++ (pat.toList ++ r) := by
  simp [goContains, charsContain_iff]

/-! ### Error classifier (isGraphQLNotFound) -/

/-- Go errors are modelled as Option String: none is a nil error, some m
is a non-nil error whose Error() message is m.  isGraphQLNotFound returns
true when the error is a GraphQL not-found error; a nil error is never
not-found. -/
def isGraphQLNotFound : Option String → Bool
  | none => false
  | some msg =>
      goContains msg "could not resolve to a User" ||
      goContains msg "could not resolve to an Organization" ||
      goContains msg "non-200 OK status code: 400" ||
      goContains msg "non-200 OK status code: 404"

/-- The registered not-found phrases, as listed by the specification. -/
def notFoundPhrases : List String :=
  ["could not resolve to a User", "could not resolve to an Organization",
   "non-200 OK status code: 400", "non-200 OK status code: 404"]

/-! ### resolveOwnerID -/

/-- Outcome of one transport call: the decoded data the call wrote into
the query struct, plus the error it returned.  A call that errors may
leave the data at its zero value (for pointers, none). -/
structure QueryOutcome (α : Type) where
  data : α
  err : Option String
deriving Repr

/-- The oracle for resolveOwnerID: the outcome of the organization-login
query (data is the decoded Organization pointer, carrying its ID) and of
the user-login query. -/
structure OwnerLookupClient where
  org : QueryOutcome (Option String)
  user : QueryOutcome (Option String)
deriving Repr

/-- Which lookup queries resolveOwnerID issued, in order. -/
inductive LookupCall
  | org
  | user
deriving DecidableEq, Repr

/-- The fatal-error pattern from resolveOwnerID: err is non-nil and not
classified not-found (Go: err != nil && !isGraphQLNotFound(err)). -/
def fatalErr (e : Option String) : Option String :=
  match e with
  | none => none
  | some msg => if isGraphQLNotFound (some msg) then none else some msg

/-- resolveOwnerID from owner_resolution.go: organization lookup, fatal
errors returned with context, not-found errors continued past; then the
organization pointer is preferred; then the user lookup the same way;
otherwise the owner-not-found error (the final two Go return statements
both yield it).  The result pairs the (ID, error) Go return values with
the trace of lookups issued. -/
def resolveOwnerID (c : OwnerLookupClient) : (String × Option String) × List LookupCall :=
  match fatalErr c.org.err with
  | some e => (("", some ("organization lookup failed: " ++ e)), [LookupCall.org])
  | none =>
    match c.org.data with
    | some id => ((id, none), [LookupCall.org])
    | none =>
      match fatalErr c.user.err with
      | some e => (("", some ("user lookup failed: " ++ e)), [LookupCall.org, LookupCall.user])
      | none =>
        match c.user.data with
        | some id => ((id, none), [LookupCall.org, LookupCall.user])
        | none => (("", some "owner not found"), [LookupCall.org, LookupCall.user])

/-! ### Data model of the projects operations (struct definitions in the
colocated Go source) -/

structure ListOrganizationProjectsInput where
  organization : String
  first : Int
  after : String
deriving DecidableEq, Repr

structure Project where
  id : String
  number : Int
  title : String
  url : String
deriving DecidableEq, Repr

/-- Output of both list-projects operations.  A Go slice is modelled as
Option (List Project): none is a nil slice (serialized as null), some is
a non-nil slice. -/
structure ListOrganizationProjectsOutput where
  projects : Option (List Project)
  endCursor : String
  hasNextPage : Bool
deriving DecidableEq, Repr

structure ListUserProjectsInput where
  user : String
  first : Int
  after : String
deriving DecidableEq, Repr

structure GetProjectInput where
  owner : String
  number : Int
deriving DecidableEq, Repr

structure GetProjectItemsInput where
  projectID : String
  first : Int
  after : String
deriving DecidableEq, Repr

structure ProjectItem where
  id : String
  contentID : String
  contentType : String
  title : String
  state : String
  url : String
deriving DecidableEq, Repr

structure GetProjectItemsOutput where
  items : Option (List ProjectItem)
  endCursor : String
  hasNextPage : Bool
deriving DecidableEq, Repr

structure CreateProjectInput where
  owner : String
  title : String
  description : String
deriving DecidableEq, Repr

structure AddProjectItemInput where
  projectID : String
  contentID : String
deriving DecidableEq, Repr

structure AddProjectItemOutput where
  item : ProjectItem
deriving DecidableEq, Repr

structure UpdateProjectItemFieldInput where
  projectID : String
  itemID : String
  fieldID : String
  value : String
deriving DecidableEq, Repr

structure UpdateProjectItemFieldOutput where
  item : ProjectItem
deriving DecidableEq, Repr

/-! ### Decoded remote response shapes -/

/-- A decoded projectsV2 node (ID, Number, Title, URL).  ghv4.ID decodes
to a string, ghv4.Int to an integer, ghv4.URI renders as its string. -/
structure ProjNode where
  id : String
  number : Int
  title : String
  url : String
deriving DecidableEq, Repr

/-- A decoded projectsV2 connection: node list plus pageInfo. -/
structure ProjectsConn where
  nodes : List ProjNode
  endCursor : String
  hasNextPage : Bool
deriving DecidableEq, Repr

/-- The combined GetProject response: each root field is a nilable
pointer, and inside it the projectV2 field is again a nilable pointer. -/
structure GetProjectData where
  organization : Option (Option ProjNode)
  user : Option (Option ProjNode)
deriving DecidableEq, Repr

/-- Decoded content union of a project item, keyed by __typename.  In
GetProjectItems the content field is embedded by value, so an
unresolved content decodes to zero-valued fields. -/
structure ContentData where
  typename : String
  id : String
  title : String
  state : String
  url : String
deriving DecidableEq, Repr

structure ItemNode where
  id : String
  content : ContentData
deriving DecidableEq, Repr

structure ItemsConn where
  nodes : List ItemNode
  endCursor : String
  hasNextPage : Bool
deriving DecidableEq, Repr

/-- Decoded addProjectV2ItemById payload: the item ID and its content
union, a nilable pointer here. -/
structure AddItemData where
  id : String
  content : Option ContentData
deriving DecidableEq, Repr

/-! ### Operations -/

/-- The observable side effects of one operation, in order. -/
inductive Event
  | credentialLookup
  | clientConstruction
  | query
  | mutation
deriving DecidableEq, Repr

/-- Go return shape (out pointer, error) of one operation, together with
the trace of side effects the operation performed. -/
structure OpResult (α : Type) where
  out : Option α
  err : Option String
  trace : List Event
deriving DecidableEq, Repr

/-- The client-acquisition prologue shared by every operation: when the
caller passes a nil client, read GITHUB_PERSONAL_ACCESS_TOKEN from the
environment (Go os.Getenv yields the empty string when unset), fail when
it is empty, otherwise construct a default client. -/
def acquireClient (clientProvided : Bool) (envToken : String) : Option String × List Event :=
  if clientProvided then (none, [])
  else if envToken = "" then
    (some "GITHUB_PERSONAL_ACCESS_TOKEN not set", [Event.credentialLookup])
  else (none, [Event.credentialLookup, Event.clientConstruction])

/-- Go append on a possibly-nil slice: appending always allocates, so
the result is non-nil. -/
def goAppend (s : Option (List α)) (a : α) : Option (List α) :=
  some (s.getD [] ++ [a])

/-- The node-to-DTO mapping in the list-projects loops (fmt.Sprint of a
string ID is the ID itself). -/
def projNodeToProject (n : ProjNode) : Project :=
  { id := n.id, number := n.number, title := n.title, url := n.url }

/-- The node-to-DTO mapping in the GetProjectItems loop.  The Go struct
literal sets ID, ContentID, ContentType, Title and URL but omits State,
so State keeps the Go zero value, the empty string. -/
def itemNodeToProjectItem (n : ItemNode) : ProjectItem :=
  { id := n.id, contentID := n.content.id, contentType := n.content.typename,
    title := n.content.title, state := "", url := n.content.url }

/-- ListOrganizationProjects: validate, acquire client, one query, map
the nodes (slice initialized non-nil, then appended in node order). -/
def ListOrganizationProjects (clientProvided : Bool) (envToken : String)
    (remote : QueryOutcome ProjectsConn) (input : ListOrganizationProjectsInput) :
    OpResult ListOrganizationProjectsOutput :=
  if input.organization = "" then ⟨none, some "organization is required", []⟩
  else
    match acquireClient clientProvided envToken with
    | (some e, tr) => ⟨none, some e, tr⟩
    | (none, tr) =>
      match remote.err with
      | some e => ⟨none, some ("github graphql error: " ++ e), tr ++ [Event.query]⟩
      | none =>
        ⟨some { projects := remote.data.nodes.foldl
                  (fun acc n => goAppend acc (projNodeToProject n)) (some []),
                endCursor := remote.data.endCursor,
                hasNextPage := remote.data.hasNextPage },
         none, tr ++ [Event.query]⟩

/-- ListUserProjects: same shape as the organization listing, rooted at
the user field; the Go function reuses ListOrganizationProjectsOutput. -/
def ListUserProjects (clientProvided : Bool) (envToken : String)
    (remote : QueryOutcome ProjectsConn) (input : ListUserProjectsInput) :
    OpResult ListOrganizationProjectsOutput :=
  if input.user = "" then ⟨none, some "user is required", []⟩
  else
    match acquireClient clientProvided envToken with
    | (some e, tr) => ⟨none, some e, tr⟩
    | (none, tr) =>
      match remote.err with
      | some e => ⟨none, some ("github graphql error: " ++ e), tr ++ [Event.query]⟩
      | none =>
        ⟨some { projects := remote.data.nodes.foldl
                  (fun acc n => goAppend acc (projNodeToProject n)) (some []),
                endCursor := remote.data.endCursor,
                hasNextPage := remote.data.hasNextPage },
         none, tr ++ [Event.query]⟩

/-- GetProject: validate, acquire client, one combined query against
both roots; the organization root is checked first, then the user root,
else the project-not-found error. -/
def GetProject (clientProvided : Bool) (envToken : String)
    (remote : QueryOutcome GetProjectData) (input : GetProjectInput) :
    OpResult Project :=
  if input.owner = "" ∨ input.number = 0 then
    ⟨none, some "owner and number are required", []⟩
  else
    match acquireClient clientProvided envToken with
    | (some e, tr) => ⟨none, some e, tr⟩
    | (none, tr) =>
      match remote.err with
      | some e => ⟨none, some ("github graphql error: " ++ e), tr ++ [Event.query]⟩
      | none =>
        match remote.data.organization, remote.data.user with
        | some (some p), _ => ⟨some (projNodeToProject p), none, tr ++ [Event.query]⟩
        | _, some (some p) => ⟨some (projNodeToProject p), none, tr ++ [Event.query]⟩
        | _, _ => ⟨none, some "project not found", tr ++ [Event.query]⟩

/-- GetProjectItems: validate, acquire client, one node query, map the
item nodes (slice initialized non-nil, then appended in node order). -/
def GetProjectItems (clientProvided : Bool) (envToken : String)
    (remote : QueryOutcome ItemsConn) (input : GetProjectItemsInput) :
    OpResult GetProjectItemsOutput :=
  if input.projectID = "" then ⟨none, some "projectID is required", []⟩
  else
    match acquireClient clientProvided envToken with
    | (some e, tr) => ⟨none, some e, tr⟩
    | (none, tr) =>
      match remote.err with
      | some e => ⟨none, some ("github graphql error: " ++ e), tr ++ [Event.query]⟩
      | none =>
        ⟨some { items := remote.data.nodes.foldl
                  (fun acc n => goAppend acc (itemNodeToProjectItem n)) (some []),
                endCursor := remote.data.endCursor,
                hasNextPage := remote.data.hasNextPage },
         none, tr ++ [Event.query]⟩

/-- The oracle for CreateProject: the combined org+user owner-lookup
query (data decodes both nilable root pointers), and the create
mutation, whose response may depend on the ownerId the code sends. -/
structure CreateProjectRemote where
  ownerQ : QueryOutcome (Option String × Option String)
  createM : String → QueryOutcome ProjNode

/-- The create-mutation tail of CreateProject, issued with the resolved
owner ID. -/
def createStep (m : QueryOutcome ProjNode) (tr : List Event) : OpResult Project :=
  match m.err with
  | some e => ⟨none, some ("github graphql error: " ++ e), tr ++ [Event.query, Event.mutation]⟩
  | none =>
    ⟨some (projNodeToProject m.data), none, tr ++ [Event.query, Event.mutation]⟩

/-- CreateProject: validate, acquire client, then one combined org+user
owner-lookup query.  Any error of that query is returned directly as
owner-lookup-failed, with no not-found classification; otherwise the
organization pointer is preferred, then the user pointer, else the
owner-not-found error before any mutation.  On success the create
mutation is issued with the resolved ID.  (The mutation payload shaping,
including dropping an empty description, is not observable through this
oracle and is not modelled.) -/
def CreateProject (clientProvided : Bool) (envToken : String)
    (remote : CreateProjectRemote) (input : CreateProjectInput) : OpResult Project :=
  if input.owner = "" ∨ input.title = "" then
    ⟨none, some "owner and title are required", []⟩
  else
    match acquireClient clientProvided envToken with
    | (some e, tr) => ⟨none, some e, tr⟩
    | (none, tr) =>
      match remote.ownerQ.err with
      | some e => ⟨none, some ("owner lookup failed: " ++ e), tr ++ [Event.query]⟩
      | none =>
        match remote.ownerQ.data.1, remote.ownerQ.data.2 with
        | some oid, _ => createStep (remote.createM oid) tr
        | none, some uid => createStep (remote.createM uid) tr
        | none, none => ⟨none, some "owner not found", tr ++ [Event.query]⟩

/-- AddProjectItem: validate, acquire client, one mutation; an absent
content union yields an item with only the ID populated (here State is
populated when content is present). -/
def AddProjectItem (clientProvided : Bool) (envToken : String)
    (remote : QueryOutcome AddItemData) (input : AddProjectItemInput) :
    OpResult AddProjectItemOutput :=
  if input.projectID = "" ∨ input.contentID = "" then
    ⟨none, some "projectID and contentID are required", []⟩
  else
    match acquireClient clientProvided envToken with
    | (some e, tr) => ⟨none, some e, tr⟩
    | (none, tr) =>
      match remote.err with
      | some e => ⟨none, some ("github graphql error: " ++ e), tr ++ [Event.mutation]⟩
      | none =>
        match remote.data.content with
        | none =>
          ⟨some ⟨⟨remote.data.id, "", "", "", "", ""⟩⟩, none, tr ++ [Event.mutation]⟩
        | some c =>
          ⟨some ⟨⟨remote.data.id, c.id, c.typename, c.title, c.state, c.url⟩⟩,
           none, tr ++ [Event.mutation]⟩

/-- UpdateProjectItemField: validate (projectID is not required), acquire
client, one mutation; only the updated item ID is echoed. -/
def UpdateProjectItemField (clientProvided : Bool) (envToken : String)
    (remote : QueryOutcome String) (input : UpdateProjectItemFieldInput) :
    OpResult UpdateProjectItemFieldOutput :=
  if input.itemID = "" ∨ input.fieldID = "" ∨ input.value = "" then
    ⟨none, some "itemID, fieldID, and value are required", []⟩
  else
    match acquireClient clientProvided envToken with
    | (some e, tr) => ⟨none, some e, tr⟩
    | (none, tr) =>
      match remote.err with
      | some e => ⟨none, some ("github graphql error: " ++ e), tr ++ [Event.mutation]⟩
      | none =>
        ⟨some ⟨⟨remote.data, "", "", "", "", ""⟩⟩, none, tr ++ [Event.mutation]⟩

/-! ### Helper lemmas -/

/-- The Go append loop over a node list, started from the explicitly
allocated empty slice, produces the non-nil slice of mapped nodes in
order. -/
theorem foldl_goAppend_map (f : α → β) (xs : List α) (acc : List β) :
    xs.foldl (fun a n => goAppend a (f n)) (some acc) = some (acc ++ xs.map f) := by
  induction xs generalizing acc with
  | nil => simp
  | cons x xs ih =>
    have h1 : goAppend (some acc) (f x) = some (acc ++ [f x]) := rfl
    simp only [List.foldl_cons, h1, ih, List.map_cons]
    simp

/-! ### Claims about resolveOwnerID -/

/-- Claim C2: whenever the organization lookup succeeds and decodes an
organization object, resolveOwnerID returns that organization ID with a
nil error and issues no user lookup, whatever the user lookup would have
returned. -/
theorem resolveOwnerID_org_precedence (c : OwnerLookupClient) (id : String)
    (hok : c.org.err = none) (hdata : c.org.data = some id) :
    resolveOwnerID c = ((id, none), [LookupCall.org]) := by
  simp [resolveOwnerID, fatalErr, hok, hdata]

theorem resolveOwnerID_org_precedence_witness :
    resolveOwnerID ⟨⟨some "ORGID", none⟩, ⟨some "USERID", none⟩⟩
      = (("ORGID", none), [LookupCall.org]) :=
  resolveOwnerID_org_precedence ⟨⟨some "ORGID", none⟩, ⟨some "USERID", none⟩⟩ "ORGID" rfl rfl

/-- Claim C8: whenever the organization lookup errors and the error is
not classified not-found, resolveOwnerID returns the error wrapped with
the organization-lookup-failed context and never issues the user
lookup. -/
theorem resolveOwnerID_org_fatal_short_circuit (c : OwnerLookupClient) (e : String)
    (herr : c.org.err = some e) (hf : isGraphQLNotFound (some e) = false) :
    resolveOwnerID c
      = (("", some ("organization lookup failed: " ++ e)), [LookupCall.org]) := by
  simp [resolveOwnerID, fatalErr, herr, hf]

theorem resolveOwnerID_org_fatal_short_circuit_witness :
    resolveOwnerID ⟨⟨none, some "fatal org error"⟩, ⟨some "USERID", none⟩⟩
      = (("", some "organization lookup failed: fatal org error"), [LookupCall.org]) :=
  resolveOwnerID_org_fatal_short_circuit ⟨⟨none, some "fatal org error"⟩, ⟨some "USERID", none⟩⟩
    "fatal org error" rfl (by decide)

/-- Claim C9: whenever the organization lookup errors with a not-found
classification (so no organization object was decoded), resolveOwnerID
proceeds to the user lookup: a succeeding user lookup that decodes a
user object yields that user ID, and a user lookup that also errors
not-found (decoding no user object) yields the owner-not-found error. -/
theorem resolveOwnerID_org_notfound_continues (c : OwnerLookupClient) (e : String)
    (herr : c.org.err = some e) (hnf : isGraphQLNotFound (some e) = true)
    (hod : c.org.data = none) :
    (∀ uid, c.user.err = none → c.user.data = some uid →
        resolveOwnerID c = ((uid, none), [LookupCall.org, LookupCall.user])) ∧
    (∀ e2, c.user.err = some e2 → isGraphQLNotFound (some e2) = true →
        c.user.data = none →
        resolveOwnerID c
          = (("", some "owner not found"), [LookupCall.org, LookupCall.user])) := by
  constructor
  · intro uid huerr hud
    simp [resolveOwnerID, fatalErr, herr, hnf, hod, huerr, hud]
  · intro e2 huerr hunf hud
    simp [resolveOwnerID, fatalErr, herr, hnf, hod, huerr, hunf, hud]

theorem resolveOwnerID_org_notfound_continues_witness :
    resolveOwnerID ⟨⟨none, some "non-200 OK status code: 404"⟩, ⟨some "USERID", none⟩⟩
      = (("USERID", none), [LookupCall.org, LookupCall.user]) :=
  (resolveOwnerID_org_notfound_continues
      ⟨⟨none, some "non-200 OK status code: 404"⟩, ⟨some "USERID", none⟩⟩
      "non-200 OK status code: 404" rfl (by decide) rfl).1
    "USERID" rfl rfl

/-! ### Claim about the error classifier -/

/-- Claim C3: on a non-nil error, isGraphQLNotFound is true exactly when
the message contains one of the four registered phrases as a contiguous
substring, and an error whose message contains none of them classifies
as fatal (false). -/
theorem isGraphQLNotFound_registered_phrases (msg : String) :
    (isGraphQLNotFound (some msg) = true ↔
      ∃ p ∈ notFoundPhrases, ∃ l r, msg.toList = l ++ (p.toList ++ r)) ∧
    ((∀ p ∈ notFoundPhrases, ¬ ∃ l r, msg.toList = l ++ (p.toList ++ r)) →
      isGraphQLNotFound (some msg) = false) := by
  have key : isGraphQLNotFound (some msg) = true ↔
      ∃ p ∈ notFoundPhrases, ∃ l r, msg.toList = l ++ (p.toList ++ r) := by
    simp only [isGraphQLNotFound, Bool.or_eq_true, goContains_iff, notFoundPhrases,
      List.mem_cons, List.not_mem_nil, or_false, exists_eq_or_imp, exists_eq_left,
      or_assoc]
  refine ⟨key, fun h => ?_⟩
  rcases hb : isGraphQLNotFound (some msg) with _ | _
  · rfl
  · exfalso
    rcases key.mp hb with ⟨p, hp, hsub⟩
    exact h p hp hsub

theorem isGraphQLNotFound_registered_phrases_witness :
    isGraphQLNotFound (some "some other error") = false :=
  (isGraphQLNotFound_registered_phrases "some other error").2 (by
    intro p hp hsub
    have hc : goContains "some other error" p = true := (goContains_iff _ _).mpr hsub
    fin_cases hp <;> exact absurd hc (by decide))

/-! ### Claims about the operations -/

/-- Claim C5: every operation with a missing required input field (or a
zero number, for GetProject) returns its validation error with an empty
effect trace: no credential lookup, no client construction, no query and
no mutation happen. -/
theorem validation_short_circuits :
    (∀ cp tok remote inp, inp.organization = "" →
        ListOrganizationProjects cp tok remote inp
          = ⟨none, some "organization is required", []⟩) ∧
    (∀ cp tok remote inp, inp.user = "" →
        ListUserProjects cp tok remote inp = ⟨none, some "user is required", []⟩) ∧
    (∀ cp tok remote inp, inp.owner = "" ∨ inp.number = 0 →
        GetProject cp tok remote inp = ⟨none, some "owner and number are required", []⟩) ∧
    (∀ cp tok remote inp, inp.projectID = "" →
        GetProjectItems cp tok remote inp = ⟨none, some "projectID is required", []⟩) ∧
    (∀ cp tok remote inp, inp.owner = "" ∨ inp.title = "" →
        CreateProject cp tok remote inp = ⟨none, some "owner and title are required", []⟩) ∧
    (∀ cp tok remote inp, inp.projectID = "" ∨ inp.contentID = "" →
        AddProjectItem cp tok remote inp
          = ⟨none, some "projectID and contentID are required", []⟩) ∧
    (∀ cp tok remote inp, inp.itemID = "" ∨ inp.fieldID = "" ∨ inp.value = "" →
        UpdateProjectItemField cp tok remote inp
          = ⟨none, some "itemID, fieldID, and value are required", []⟩) := by
  refine ⟨?_, ?_, ?_, ?_, ?_, ?_, ?_⟩ <;> intro cp tok remote inp h
  · simp [ListOrganizationProjects, h]
  · simp [ListUserProjects, h]
  · simp [GetProject, h]
  · simp [GetProjectItems, h]
  · simp [CreateProject, h]
  · simp [AddProjectItem, h]
  · simp [UpdateProjectItemField, h]

theorem validation_short_circuits_witness :
    ListOrganizationProjects true "" ⟨⟨[], "", false⟩, none⟩ ⟨"", 0, ""⟩
      = ⟨none, some "organization is required", []⟩ ∧
    ListUserProjects true "" ⟨⟨[], "", false⟩, none⟩ ⟨"", 0, ""⟩
      = ⟨none, some "user is required", []⟩ ∧
    GetProject true "" ⟨⟨none, none⟩, none⟩ ⟨"octo", 0⟩
      = ⟨none, some "owner and number are required", []⟩ ∧
    GetProjectItems true "" ⟨⟨[], "", false⟩, none⟩ ⟨"", 0, ""⟩
      = ⟨none, some "projectID is required", []⟩ ∧
    CreateProject true "" ⟨⟨(none, none), none⟩, fun _ => ⟨⟨"", 0, "", ""⟩, none⟩⟩
        ⟨"octo", "", ""⟩
      = ⟨none, some "owner and title are required", []⟩ ∧
    AddProjectItem true "" ⟨⟨"", none⟩, none⟩ ⟨"", "c1"⟩
      = ⟨none, some "projectID and contentID are required", []⟩ ∧
    UpdateProjectItemField true "" ⟨"", none⟩ ⟨"p1", "i1", "", "v"⟩
      = ⟨none, some "itemID, fieldID, and value are required", []⟩ :=
  ⟨validation_short_circuits.1 true "" ⟨⟨[], "", false⟩, none⟩ ⟨"", 0, ""⟩ rfl,
   validation_short_circuits.2.1 true "" ⟨⟨[], "", false⟩, none⟩ ⟨"", 0, ""⟩ rfl,
   validation_short_circuits.2.2.1 true "" ⟨⟨none, none⟩, none⟩ ⟨"octo", 0⟩ (Or.inr rfl),
   validation_short_circuits.2.2.2.1 true "" ⟨⟨[], "", false⟩, none⟩ ⟨"", 0, ""⟩ rfl,
   validation_short_circuits.2.2.2.2.1 true ""
     ⟨⟨(none, none), none⟩, fun _ => ⟨⟨"", 0, "", ""⟩, none⟩⟩ ⟨"octo", "", ""⟩ (Or.inr rfl),
   validation_short_circuits.2.2.2.2.2.1 true "" ⟨⟨"", none⟩, none⟩ ⟨"", "c1"⟩ (Or.inl rfl),
   validation_short_circuits.2.2.2.2.2.2 true "" ⟨"", none⟩ ⟨"p1", "i1", "", "v"⟩
     (Or.inr (Or.inl rfl))⟩

/-- Claim C6: a validated GetProject call whose combined query succeeds
takes the organization root when it holds a non-null project, otherwise
the user root when it holds a non-null project, and fails with the
project-not-found error when neither root yields one. -/
theorem getProject_root_selection (cp : Bool) (tok : String) (tr : List Event)
    (remote : QueryOutcome GetProjectData) (inp : GetProjectInput)
    (hv : ¬(inp.owner = "" ∨ inp.number = 0))
    (hac : acquireClient cp tok = (none, tr)) (hq : remote.err = none) :
    (∀ p, remote.data.organization = some (some p) →
        GetProject cp tok remote inp
          = ⟨some (projNodeToProject p), none, tr ++ [Event.query]⟩) ∧
    (∀ p, (remote.data.organization = none ∨ remote.data.organization = some none) →
        remote.data.user = some (some p) →
        GetProject cp tok remote inp
          = ⟨some (projNodeToProject p), none, tr ++ [Event.query]⟩) ∧
    ((remote.data.organization = none ∨ remote.data.organization = some none) →
     (remote.data.user = none ∨ remote.data.user = some none) →
        GetProject cp tok remote inp
          = ⟨none, some "project not found", tr ++ [Event.query]⟩) := by
  refine ⟨?_, ?_, ?_⟩
  · intro p horg
    simp [GetProject, hv, hac, hq, horg]
  · intro p horg huser
    rcases horg with horg | horg <;> simp [GetProject, hv, hac, hq, horg, huser]
  · intro horg huser
    rcases horg with horg | horg <;> rcases huser with huser | huser <;>
      simp [GetProject, hv, hac, hq, horg, huser]

theorem getProject_root_selection_witness :
    GetProject true ""
        ⟨⟨some (some ⟨"proj123", 123, "Test Project", "http://example.com/project"⟩),
          some (some ⟨"other", 9, "Other", "http://example.com/other"⟩)⟩, none⟩
        ⟨"test-owner", 123⟩
      = ⟨some ⟨"proj123", 123, "Test Project", "http://example.com/project"⟩,
         none, [Event.query]⟩ :=
  (getProject_root_selection true "" []
      ⟨⟨some (some ⟨"proj123", 123, "Test Project", "http://example.com/project"⟩),
        some (some ⟨"other", 9, "Other", "http://example.com/other"⟩)⟩, none⟩
      ⟨"test-owner", 123⟩ (by decide) rfl rfl).1
    ⟨"proj123", 123, "Test Project", "http://example.com/project"⟩ rfl

/-- Claim C7: every successful list operation returns a page whose item
slice is non-nil, equal to the remote nodes mapped in order (so an empty
remote result set gives the empty, non-nil slice), with the hasNextPage
flag and end cursor copied from the response. -/
theorem list_pages_never_nil :
    (∀ cp tok tr remote inp, inp.organization ≠ "" →
        acquireClient cp tok = (none, tr) → remote.err = none →
        ListOrganizationProjects cp tok remote inp
          = ⟨some ⟨some (remote.data.nodes.map projNodeToProject),
                   remote.data.endCursor, remote.data.hasNextPage⟩,
             none, tr ++ [Event.query]⟩) ∧
    (∀ cp tok tr remote inp, inp.user ≠ "" →
        acquireClient cp tok = (none, tr) → remote.err = none →
        ListUserProjects cp tok remote inp
          = ⟨some ⟨some (remote.data.nodes.map projNodeToProject),
                   remote.data.endCursor, remote.data.hasNextPage⟩,
             none, tr ++ [Event.query]⟩) ∧
    (∀ cp tok tr remote inp, inp.projectID ≠ "" →
        acquireClient cp tok = (none, tr) → remote.err = none →
        GetProjectItems cp tok remote inp
          = ⟨some ⟨some (remote.data.nodes.map itemNodeToProjectItem),
                   remote.data.endCursor, remote.data.hasNextPage⟩,
             none, tr ++ [Event.query]⟩) := by
  refine ⟨?_, ?_, ?_⟩ <;> intro cp tok tr remote inp hv hac hq
  · simp [ListOrganizationProjects, hv, hac, hq, foldl_goAppend_map]
  · simp [ListUserProjects, hv, hac, hq, foldl_goAppend_map]
  · simp [GetProjectItems, hv, hac, hq, foldl_goAppend_map]

theorem list_pages_never_nil_witness :
    ListOrganizationProjects true "" ⟨⟨[], "", false⟩, none⟩ ⟨"test-org", 0, ""⟩
      = ⟨some ⟨some [], "", false⟩, none, [Event.query]⟩ :=
  list_pages_never_nil.1 true "" [] ⟨⟨[], "", false⟩, none⟩ ⟨"test-org", 0, ""⟩
    (by decide) rfl rfl

/-- Exactly one of the Go return values of an operation is set: a
non-nil output with a nil error, or a nil output with a non-nil error. -/
def exclusiveOutcome (r : OpResult α) : Prop :=
  (r.out.isSome = true ∧ r.err = none) ∨ (r.out = none ∧ r.err.isSome = true)

/-- Claim C10: every public operation, on every path (validation,
credential, transport and not-found errors, and success), returns
exactly one of a non-nil output or a non-nil error. -/
theorem ops_result_xor_error :
    (∀ cp tok remote inp, exclusiveOutcome (ListOrganizationProjects cp tok remote inp)) ∧
    (∀ cp tok remote inp, exclusiveOutcome (ListUserProjects cp tok remote inp)) ∧
    (∀ cp tok remote inp, exclusiveOutcome (GetProject cp tok remote inp)) ∧
    (∀ cp tok remote inp, exclusiveOutcome (GetProjectItems cp tok remote inp)) ∧
    (∀ cp tok remote inp, exclusiveOutcome (CreateProject cp tok remote inp)) ∧
    (∀ cp tok remote inp, exclusiveOutcome (AddProjectItem cp tok remote inp)) ∧
    (∀ cp tok remote inp, exclusiveOutcome (UpdateProjectItemField cp tok remote inp)) := by
  refine ⟨?_, ?_, ?_, ?_, ?_, ?_, ?_⟩ <;> intro cp tok remote inp
  · simp only [ListOrganizationProjects, exclusiveOutcome]
    repeat' split
    all_goals simp
  · simp only [ListUserProjects, exclusiveOutcome]
    repeat' split
    all_goals simp
  · simp only [GetProject, exclusiveOutcome]
    repeat' split
    all_goals simp
  · simp only [GetProjectItems, exclusiveOutcome]
    repeat' split
    all_goals simp
  · simp only [CreateProject, exclusiveOutcome, createStep]
    repeat' split
    all_goals simp
  · simp only [AddProjectItem, exclusiveOutcome]
    repeat' split
    all_goals simp
  · simp only [UpdateProjectItemField, exclusiveOutcome]
    repeat' split
    all_goals simp

/-- Claim C1 is a code bug.  The owner-resolution step inside
CreateProject is a single combined org+user query, not a call to
resolveOwnerID.  On the repository fixture for an owner that is a user
(test owner_is_user, documented as failing in CONTINUITY.md and
TODO.md), the mock answers the combined query with a null organization
and no user field, while its standalone user query decodes user123:
resolveOwnerID resolves user123, but CreateProject fails with the
owner-not-found error and issues no create mutation. -/
theorem createProject_owner_step_mismatch :
    resolveOwnerID ⟨⟨none, none⟩, ⟨some "user123", none⟩⟩
      = (("user123", none), [LookupCall.org, LookupCall.user]) ∧
    CreateProject true ""
        ⟨⟨(none, none), none⟩,
         fun _ => ⟨⟨"projUser", 2, "Project for User", "http://example.com/userproject"⟩, none⟩⟩
        ⟨"user-login", "Project for User", ""⟩
      = ⟨none, some "owner not found", [Event.query]⟩ := by
  constructor
  · rfl
  · simp [CreateProject, acquireClient]

/-- Claim C4 is a code bug.  The GetProjectItems mapping omits the State
field from the ProjectItem literal, although the GraphQL query fetches
state and the DTO declares it: on the repository fixture (project
proj123, one Issue item) extended with a decoded state of OPEN, the
returned item has every content field populated except state, which is
always the empty string. -/
theorem getProjectItems_drops_state :
    GetProjectItems true ""
        ⟨⟨[⟨"item1", ⟨"Issue", "c1", "Issue1", "OPEN", "http://example.com/i1"⟩⟩],
          "abc", false⟩, none⟩
        ⟨"proj123", 0, ""⟩
      = ⟨some ⟨some [⟨"item1", "c1", "Issue", "Issue1", "", "http://example.com/i1"⟩],
               "abc", false⟩,
         none, [Event.query]⟩ ∧
    (∀ n : ItemNode, (itemNodeToProjectItem n).state = "") := by
  constructor
  · simp [GetProjectItems, acquireClient, goAppend, itemNodeToProjectItem]
  · intro n
    rfl

end GithubProjects
